import Mathlib

/-
Verification development for the interactive holiday-tree application.

The embedding below translates the core logic of the repository's main
component (src/unnamed/part_000) into Lean:

* `detectGesture` — the pure hand-gesture classifier (lines 647-682);
* `frameStep` — one iteration of the vision loop's state machine
  (lines 782-869), driven by the classified gesture of a newly available
  video frame (or by the absence of a hand);
* `timerTick` — one firing of the 1-second countdown interval started when
  the photo debounce threshold is crossed (lines 804-819);
* `capturePhoto` — the snapshot-to-particle conversion (lines 684-743);
* `animStep` / `animTarget` — the per-particle part of the render-loop
  animation step (lines 590-635);
* `renderTick` — one render-loop tick over the whole state (lines 555-639).

Modelling conventions: JavaScript numbers are modelled as exact rationals
(`ℚ`) in the state machine and animation code, and as reals (`ℝ`) in the
classifier, whose comparisons involve square roots.  A three.js
`Vector3` is `Vec3`; a particle's `mesh` handle is abstracted to the piece
of its state the core logic reads and writes, namely `mesh.position`
(rotation and scale dynamics, which involve trigonometric functions of the
elapsed time, are outside the scope of the claims and are not modelled).
UI-only side effects (`setDebugInfo`, `setShowCamera`, `setFlash`) are
dropped.  Randomized draws (`Math.random`) are passed in as explicit
parameters.
-/

/-- ParticleType from src/types.ts. -/
inductive PType
  | ORNAMENT
  | GIFT
  | CANDY_CANE
  | STAR_ORNAMENT
  | BRANCH
  | BELL
  | SNOWFLAKE
  | LIGHT
  | PHOTO
deriving DecidableEq

/-- AppMode from src/types.ts. -/
inductive AppMode
  | LOADING
  | SCATTER
  | TREE
deriving DecidableEq

/-- GestureType from the main component (line 201). -/
inductive Gesture
  | NONE
  | FIST
  | OPEN_ROTATE
  | PINCH_ZOOM
  | L_SHAPE_PHOTO
deriving DecidableEq

/-- A three.js Vector3, with exact rational coordinates. -/
structure Vec3 where
  x : ℚ
  y : ℚ
  z : ℚ
deriving DecidableEq

instance : Add Vec3 := ⟨fun a b => ⟨a.x + b.x, a.y + b.y, a.z + b.z⟩⟩

instance : Neg Vec3 := ⟨fun a => ⟨-a.x, -a.y, -a.z⟩⟩

instance : Sub Vec3 := ⟨fun a b => ⟨a.x - b.x, a.y - b.y, a.z - b.z⟩⟩

/-- Scalar multiple of a vector. -/
def Vec3.smul (t : ℚ) (v : Vec3) : Vec3 := ⟨t * v.x, t * v.y, t * v.z⟩

/-- Squared length of a vector.  The source compares `v.length() > r` for a
nonnegative `r`; this is modelled throughout as `r ^ 2 < lengthSq v`, which
is equivalent and keeps the development inside `ℚ`. -/
def Vec3.lengthSq (v : Vec3) : ℚ := v.x ^ 2 + v.y ^ 2 + v.z ^ 2

/-- three.js `Vector3.lerp`: `this += (v - this) * alpha`, componentwise. -/
def Vec3.lerp (a b : Vec3) (t : ℚ) : Vec3 :=
  ⟨a.x + (b.x - a.x) * t, a.y + (b.y - a.y) * t, a.z + (b.z - a.z) * t⟩

/-- Squared distance between two points. -/
def Vec3.distSq (a b : Vec3) : ℚ := Vec3.lengthSq (a - b)

@[simp] lemma Vec3.add_x (a b : Vec3) : (a + b).x = a.x + b.x := rfl
@[simp] lemma Vec3.add_y (a b : Vec3) : (a + b).y = a.y + b.y := rfl
@[simp] lemma Vec3.add_z (a b : Vec3) : (a + b).z = a.z + b.z := rfl
@[simp] lemma Vec3.sub_x (a b : Vec3) : (a - b).x = a.x - b.x := rfl
@[simp] lemma Vec3.sub_y (a b : Vec3) : (a - b).y = a.y - b.y := rfl
@[simp] lemma Vec3.sub_z (a b : Vec3) : (a - b).z = a.z - b.z := rfl
@[simp] lemma Vec3.neg_x (a : Vec3) : (-a).x = -a.x := rfl
@[simp] lemma Vec3.neg_y (a : Vec3) : (-a).y = -a.y := rfl
@[simp] lemma Vec3.neg_z (a : Vec3) : (-a).z = -a.z := rfl
@[simp] lemma Vec3.smul_x (t : ℚ) (v : Vec3) : (Vec3.smul t v).x = t * v.x := rfl
@[simp] lemma Vec3.smul_y (t : ℚ) (v : Vec3) : (Vec3.smul t v).y = t * v.y := rfl
@[simp] lemma Vec3.smul_z (t : ℚ) (v : Vec3) : (Vec3.smul t v).z = t * v.z := rfl
@[simp] lemma Vec3.lerp_x (a b : Vec3) (t : ℚ) :
    (Vec3.lerp a b t).x = a.x + (b.x - a.x) * t := rfl
@[simp] lemma Vec3.lerp_y (a b : Vec3) (t : ℚ) :
    (Vec3.lerp a b t).y = a.y + (b.y - a.y) * t := rfl
@[simp] lemma Vec3.lerp_z (a b : Vec3) (t : ℚ) :
    (Vec3.lerp a b t).z = a.z + (b.z - a.z) * t := rfl

lemma Vec3.ext3 {a b : Vec3} (hx : a.x = b.x) (hy : a.y = b.y) (hz : a.z = b.z) :
    a = b := by
  cases a; cases b; simp_all

/-- Particle record from src/types.ts; `position` stands for the owned
`mesh.position` handle. -/
structure Particle where
  position : Vec3
  type : PType
  treePos : Vec3
  scatterPos : Vec3
  velocity : Vec3
  originalScale : Option ℚ
deriving DecidableEq

/-- SCATTER_RADIUS constant (line 14). -/
def SCATTER_RADIUS : ℚ := 70

/-- LERP_SPEED constant, 0.025 (line 15). -/
def LERP_SPEED : ℚ := 1 / 40

/-- Interpolation target a particle is given on one animation tick
(lines 590-631).  `focused` states that the particle was selected as
`nearestPhoto`, the camera-nearest photo particle during a pinch.  In the
scatter branch the code advances `scatterPos` by `velocity` before copying
it into `target`, so the target there is `scatterPos + velocity`. -/
def animTarget (mode : AppMode) (g : Gesture) (focused : Bool) (p : Particle) :
    Vec3 :=
  if g = Gesture.PINCH_ZOOM ∧ focused = true ∧ p.type = PType.PHOTO then
    ⟨0, 5, 55⟩
  else if mode = AppMode.TREE ∧ g ≠ Gesture.PINCH_ZOOM then
    p.treePos
  else
    p.scatterPos + p.velocity

/-- One animation tick for a single particle (lines 590-635): pick the
branch (pinch focus / tree / scatter), advance `scatterPos` and reflect
`velocity` in the scatter branch, then lerp `mesh.position` toward the
target with factor `LERP_SPEED`. -/
def animStep (mode : AppMode) (g : Gesture) (focused : Bool) (p : Particle) :
    Particle :=
  if g = Gesture.PINCH_ZOOM ∧ focused = true ∧ p.type = PType.PHOTO then
    { p with position := Vec3.lerp p.position ⟨0, 5, 55⟩ LERP_SPEED }
  else if mode = AppMode.TREE ∧ g ≠ Gesture.PINCH_ZOOM then
    { p with position := Vec3.lerp p.position p.treePos LERP_SPEED }
  else
    let sp := p.scatterPos + p.velocity
    let v := if SCATTER_RADIUS ^ 2 < Vec3.lengthSq sp then -p.velocity else p.velocity
    { p with scatterPos := sp, velocity := v,
             position := Vec3.lerp p.position sp LERP_SPEED }

/-- The random draws consumed by `capturePhoto` (lines 727-739): the
tree-surface resting position, the scatter starting position and the
velocity direction, abstracted as given vectors. -/
structure PhotoRnd where
  treePos : Vec3
  scatterPos : Vec3
  velocity : Vec3
deriving DecidableEq

/-- The particle `capturePhoto` appends (lines 733-742): type PHOTO, a
distinguished baseline scale of 1.5, geometry from the random draws. -/
def mkPhotoParticle (r : PhotoRnd) : Particle :=
  { position := ⟨0, 0, 0⟩
    type := PType.PHOTO
    treePos := r.treePos
    scatterPos := r.scatterPos
    velocity := r.velocity
    originalScale := some (3 / 2) }

/-- capturePhoto (lines 684-743): if the video element is unavailable the
function returns without touching the registry; otherwise it appends
exactly one new photo particle. -/
def capturePhoto (videoReady : Bool) (r : PhotoRnd) (particles : List Particle) :
    List Particle :=
  if videoReady then particles ++ [mkPhotoParticle r] else particles

/-- The process-wide interaction state: the mutable refs of the component
(lines 212-222) together with the particle registry.  `captures` counts
`capturePhoto` invocations (capture triggers). -/
structure AState where
  mode : AppMode
  gesture : Gesture
  rotationSpeed : ℚ
  rotationOffset : ℚ
  photoModeDebounce : ℕ
  isCountingDown : Bool
  countdown : ℕ
  captures : ℕ
  particles : List Particle
  videoReady : Bool
deriving DecidableEq

/-- One iteration of the vision loop on a newly available frame
(lines 787-865).  `some (g, palmX)` is a frame on which a hand was detected
and classified as `g` with wrist x-coordinate `palmX`; `none` is a frame
with no hand.  Rational constants: 0.005 = 1/200, 0.02 = 1/50,
0.002 = 1/500.  The guarded `setAppMode` calls collapse to direct mode
updates. -/
def frameStep (inp : Option (Gesture × ℚ)) (s : AState) : AState :=
  match inp with
  | some (g, palmX) =>
    let s1 : AState := { s with gesture := g }
    let s2 : AState :=
      if g = Gesture.L_SHAPE_PHOTO then
        let sL : AState := { s1 with rotationSpeed := 1 / 200 }
        if sL.isCountingDown then sL
        else
          let newCount := sL.photoModeDebounce + 1
          if newCount > 10 then
            { sL with photoModeDebounce := newCount, isCountingDown := true,
                      countdown := 3 }
          else
            { sL with photoModeDebounce := newCount }
      else
        { s1 with photoModeDebounce := 0 }
    if g = Gesture.OPEN_ROTATE then
      { s2 with mode := AppMode.SCATTER,
                rotationSpeed := (palmX - 1 / 2) * (1 / 50) }
    else if g = Gesture.PINCH_ZOOM then
      { s2 with mode := AppMode.SCATTER, rotationSpeed := 1 / 500 }
    else if g = Gesture.FIST then
      { s2 with mode := AppMode.TREE, rotationSpeed := 1 / 200 }
    else
      s2
  | none => { s with gesture := Gesture.NONE, rotationSpeed := 1 / 200 }

/-- One firing of the countdown interval (lines 805-819): decrement; while
the local count stays positive only the display changes, and on reaching
zero the capture fires once, the flash is shown, and the sub-state returns
to idle with the debounce counter cleared. -/
def timerTick (r : PhotoRnd) (s : AState) : AState :=
  if s.isCountingDown then
    if s.countdown - 1 > 0 then
      { s with countdown := s.countdown - 1 }
    else
      { s with countdown := 0
               captures := s.captures + 1
               particles := capturePhoto s.videoReady r s.particles
               isCountingDown := false
               photoModeDebounce := 0 }
  else
    s

/-- One render-loop tick over the whole state (lines 555-639): accumulate
`rotationOffset` by `rotationSpeed` and run `animStep` on every particle.
The camera-nearest photo selection (lines 572-588) is resolved by scene
geometry outside this model and is passed in as the index
`nearestPhoto`. -/
def renderTick (nearestPhoto : Option ℕ) (s : AState) : AState :=
  { s with rotationOffset := s.rotationOffset + s.rotationSpeed
           particles := s.particles.mapIdx
             (fun i p => animStep s.mode s.gesture (nearestPhoto == some i) p) }

/-- Folding the vision-loop step over a sequence of classified frames. -/
def runFrames (fs : List (Gesture × ℚ)) (s : AState) : AState :=
  fs.foldl (fun t f => frameStep (some f) t) s

/-- The steady state right after `setupVision` succeeds (lines 778-780 and
the ref initializers, lines 217-222). -/
def initialState : AState :=
  { mode := AppMode.TREE
    gesture := Gesture.NONE
    rotationSpeed := 1 / 200
    rotationOffset := 0
    photoModeDebounce := 0
    isCountingDown := false
    countdown := 0
    captures := 0
    particles := []
    videoReady := true }

/-- NormalizedLandmark from mediapipe: normalized screen coordinates plus a
depth coordinate.  Coordinates are modelled as exact reals because the
classifier compares Euclidean (square-root) distances. -/
structure NormalizedLandmark where
  x : ℝ
  y : ℝ
  z : ℝ

/-- The classifier's local distance helper (line 655):
`Math.hypot(a.x - b.x, a.y - b.y)` — the 2D Euclidean distance, ignoring
depth. -/
noncomputable def d (a b : NormalizedLandmark) : ℝ :=
  Real.sqrt ((a.x - b.x) ^ 2 + (a.y - b.y) ^ 2)

/-- detectGesture (lines 647-682), with the early returns of the source
rendered as nested conditionals: pinch check first; then the L-shape check,
whose failed thumb sub-check falls through to the fist/open computation;
finally the average-distance fist/open/none rule.  Thresholds: 0.05 = 1/20,
0.3 = 3/10, 0.25 = 1/4, 0.2 = 1/5, 0.35 = 7/20. -/
noncomputable def detectGesture (lm : Fin 21 → NormalizedLandmark) : Gesture :=
  let wrist := lm 0
  let thumbTip := lm 4
  let indexTip := lm 8
  let midTip := lm 12
  let ringTip := lm 16
  let pinkyTip := lm 20
  if d thumbTip indexTip < 1 / 20 then Gesture.PINCH_ZOOM
  else
    let indexDist := d indexTip wrist
    let midDist := d midTip wrist
    let ringDist := d ringTip wrist
    let pinkyDist := d pinkyTip wrist
    let fistOpen :=
      let avgDist := (indexDist + midDist + ringDist + pinkyDist) / 4
      if avgDist < 1 / 4 then Gesture.FIST
      else if avgDist > 7 / 20 then Gesture.OPEN_ROTATE
      else Gesture.NONE
    if indexDist > 3 / 10 ∧ midDist < 1 / 4 ∧ ringDist < 1 / 4 ∧ pinkyDist < 1 / 4 then
      if d thumbTip wrist > 1 / 5 then Gesture.L_SHAPE_PHOTO else fistOpen
    else fistOpen

/-- Modelled from the spec's words (section 4.1) for comparison against
`detectGesture`: a flat precedence list of rules, first match wins — pinch,
then the five-way L-shape conjunction, then the fist/open/none rule on the
average non-thumb fingertip distance. -/
noncomputable def specGesture (lm : Fin 21 → NormalizedLandmark) : Gesture :=
  let wrist := lm 0
  let thumbTip := lm 4
  let indexTip := lm 8
  let midTip := lm 12
  let ringTip := lm 16
  let pinkyTip := lm 20
  if d thumbTip indexTip < 1 / 20 then Gesture.PINCH_ZOOM
  else if d indexTip wrist > 3 / 10 ∧ d midTip wrist < 1 / 4 ∧
          d ringTip wrist < 1 / 4 ∧ d pinkyTip wrist < 1 / 4 ∧
          d thumbTip wrist > 1 / 5 then Gesture.L_SHAPE_PHOTO
  else
    let a := (d indexTip wrist + d midTip wrist + d ringTip wrist +
              d pinkyTip wrist) / 4
    if a < 1 / 4 then Gesture.FIST
    else if a > 7 / 20 then Gesture.OPEN_ROTATE
    else Gesture.NONE

/-- C1: for every set of 21 normalized hand landmarks, the gesture
classifier returns its label by checking the spec's rules in precedence
order with first match winning — pinch (thumb-tip-to-index-tip 2D distance
below 0.05), then the L-shape conjunction (index-tip far from the wrist,
middle/ring/pinky tips close, thumb tip far), then fist / open-rotate /
none by the average non-thumb fingertip-to-wrist distance. -/
theorem detectGesture_eq_spec (lm : Fin 21 → NormalizedLandmark) :
    detectGesture lm = specGesture lm := by
  unfold detectGesture specGesture
  dsimp only
  split_ifs <;> tauto

/-- C9: the classifier's output depends only on the x and y coordinates of
the 21 landmarks; two landmark sets that agree on every x and y produce
the same label no matter how their depth coordinates differ. -/
theorem detectGesture_depth_independent (lm lm2 : Fin 21 → NormalizedLandmark)
    (h : ∀ i, (lm i).x = (lm2 i).x ∧ (lm i).y = (lm2 i).y) :
    detectGesture lm = detectGesture lm2 := by
  have hd : ∀ i j : Fin 21, d (lm i) (lm j) = d (lm2 i) (lm2 j) := by
    intro i j
    unfold d
    rw [(h i).1, (h i).2, (h j).1, (h j).2]
  unfold detectGesture
  dsimp only
  simp only [hd]

/-- A hand with every landmark at the origin of the image plane, at zero
depth. -/
def lmFlat : Fin 21 → NormalizedLandmark := fun _ => ⟨0, 0, 0⟩

/-- The same hand in the image plane, but pushed to depth 1 at every
landmark. -/
def lmDeep : Fin 21 → NormalizedLandmark := fun _ => ⟨0, 0, 1⟩

/-- Witness for C9: concrete landmark sets agreeing on x and y but not on
depth classify identically. -/
theorem detectGesture_depth_independent_witness :
    detectGesture lmFlat = detectGesture lmDeep :=
  detectGesture_depth_independent lmFlat lmDeep (fun _ => ⟨rfl, rfl⟩)

/-- A state part-way through a debounce, with a non-default rotation speed,
used to exercise the fall-through branches of the vision loop. -/
def midDebounceState : AState :=
  { initialState with photoModeDebounce := 5, rotationSpeed := 7 / 1000,
                      gesture := Gesture.FIST }

/-- Counterexample to C4: on a no-hand frame the vision loop does not reset
the debounce counter (it stays at 5), and on a hand-present frame classified
NONE it does not reset the rotation speed to the default 1/200 (it stays at
7/1000). -/
theorem frameStep_reset_counterexample :
    ¬((frameStep none midDebounceState).photoModeDebounce = 0) ∧
    ¬((frameStep (some (Gesture.NONE, 1 / 2)) midDebounceState).rotationSpeed
        = 1 / 200) := by
  constructor
  · show ¬((5 : ℕ) = 0)
    decide
  · show ¬((7 / 1000 : ℚ) = 1 / 200)
    norm_num

/-- C4 as amended: on a hand-present frame classified NONE the machine
resets the debounce counter and stores gesture NONE but leaves the rotation
speed and mode unchanged; on a no-hand frame it stores gesture NONE and
resets the rotation speed to the default constant but leaves the debounce
counter and mode unchanged. -/
theorem frameStep_none_reset_amended (s : AState) (x : ℚ) :
    (frameStep (some (Gesture.NONE, x)) s).photoModeDebounce = 0 ∧
    (frameStep (some (Gesture.NONE, x)) s).gesture = Gesture.NONE ∧
    (frameStep (some (Gesture.NONE, x)) s).rotationSpeed = s.rotationSpeed ∧
    (frameStep (some (Gesture.NONE, x)) s).mode = s.mode ∧
    (frameStep none s).gesture = Gesture.NONE ∧
    (frameStep none s).rotationSpeed = 1 / 200 ∧
    (frameStep none s).photoModeDebounce = s.photoModeDebounce ∧
    (frameStep none s).mode = s.mode :=
  ⟨rfl, rfl, rfl, rfl, rfl, rfl, rfl, rfl⟩

/-- C7: the rotation-offset accumulator is advanced by exactly the current
rotation speed on every render tick, and no other transition of the system
(vision frame, countdown timer) ever modifies it — it is never reset. -/
theorem rotationOffset_accumulates :
    (∀ (foc : Option ℕ) (s : AState),
      (renderTick foc s).rotationOffset = s.rotationOffset + s.rotationSpeed) ∧
    (∀ (inp : Option (Gesture × ℚ)) (s : AState),
      (frameStep inp s).rotationOffset = s.rotationOffset) ∧
    (∀ (r : PhotoRnd) (s : AState),
      (timerTick r s).rotationOffset = s.rotationOffset) := by
  refine ⟨fun foc s => rfl, fun inp s => ?_, fun r s => ?_⟩
  · cases inp with
    | none => rfl
    | some f =>
        obtain ⟨g, x⟩ := f
        cases g <;> unfold frameStep <;> dsimp only <;> split_ifs <;> rfl
  · unfold timerTick
    split_ifs <;> rfl

/-- C10: a frame classified L_SHAPE_PHOTO never changes the mode, and it
sets the rotation speed to the default constant 0.005 = 1/200
unconditionally — before the debounce threshold is met and during a
countdown alike. -/
theorem frameStep_lshape_mode_speed (s : AState) (x : ℚ) :
    (frameStep (some (Gesture.L_SHAPE_PHOTO, x)) s).mode = s.mode ∧
    (frameStep (some (Gesture.L_SHAPE_PHOTO, x)) s).rotationSpeed = 1 / 200 := by
  unfold frameStep
  dsimp only
  split_ifs <;> first | exact ⟨rfl, rfl⟩ | simp_all

/-- C8: capture with an unavailable video source is a no-op on the particle
registry, a successful capture appends exactly one photo-type particle and
removes nothing, and a countdown completing without a video source creates
no particle and returns the sub-state to idle without restarting any
countdown. -/
theorem capturePhoto_append_or_noop :
    (∀ (r : PhotoRnd) (reg : List Particle), capturePhoto false r reg = reg) ∧
    (∀ (r : PhotoRnd) (reg : List Particle),
      capturePhoto true r reg = reg ++ [mkPhotoParticle r] ∧
      (mkPhotoParticle r).type = PType.PHOTO) ∧
    (∀ (r : PhotoRnd) (s : AState),
      s.isCountingDown = true → s.countdown = 1 → s.videoReady = false →
      (timerTick r s).particles = s.particles ∧
      (timerTick r s).isCountingDown = false ∧
      (timerTick r s).countdown = 0) := by
  refine ⟨fun r reg => rfl, fun r reg => ⟨rfl, rfl⟩, fun r s h1 h2 h3 => ?_⟩
  unfold timerTick
  rw [h1, h2]
  simp [capturePhoto, h3]

/-- A counting-down state one tick from firing, with the camera gone. -/
def countdownDoneState : AState :=
  { initialState with isCountingDown := true, countdown := 1,
                      videoReady := false }

/-- A fixed set of random draws for a captured photo particle. -/
def rnd0 : PhotoRnd := ⟨⟨0, 0, 0⟩, ⟨0, 0, 0⟩, ⟨0, 0, 0⟩⟩

/-- Witness for C8: a countdown completing with the video source
unavailable leaves the concrete registry untouched. -/
theorem capturePhoto_append_or_noop_witness :
    (timerTick rnd0 countdownDoneState).particles
      = countdownDoneState.particles :=
  (capturePhoto_append_or_noop.2.2 rnd0 countdownDoneState rfl rfl rfl).1

lemma runFrames_cons (f : Gesture × ℚ) (fs : List (Gesture × ℚ)) (s : AState) :
    runFrames (f :: fs) s = runFrames fs (frameStep (some f) s) := rfl

lemma frameStep_L_counting (s : AState) (x : ℚ) (h : s.isCountingDown = true) :
    frameStep (some (Gesture.L_SHAPE_PHOTO, x)) s =
      { s with gesture := Gesture.L_SHAPE_PHOTO, rotationSpeed := 1 / 200 } := by
  unfold frameStep
  dsimp only
  split_ifs <;> first | rfl | simp_all

lemma frameStep_L_idle (s : AState) (x : ℚ) (h : s.isCountingDown = false) :
    frameStep (some (Gesture.L_SHAPE_PHOTO, x)) s =
      if s.photoModeDebounce + 1 > 10 then
        { s with gesture := Gesture.L_SHAPE_PHOTO, rotationSpeed := 1 / 200,
                 photoModeDebounce := s.photoModeDebounce + 1,
                 isCountingDown := true, countdown := 3 }
      else
        { s with gesture := Gesture.L_SHAPE_PHOTO, rotationSpeed := 1 / 200,
                 photoModeDebounce := s.photoModeDebounce + 1 } := by
  unfold frameStep
  dsimp only
  split_ifs <;> first | rfl | simp_all

lemma runFrames_L_counting (x : ℚ) :
    ∀ (n : ℕ) (s : AState), s.isCountingDown = true →
      (runFrames (List.replicate n (Gesture.L_SHAPE_PHOTO, x)) s).photoModeDebounce
          = s.photoModeDebounce ∧
      (runFrames (List.replicate n (Gesture.L_SHAPE_PHOTO, x)) s).isCountingDown
          = true ∧
      (runFrames (List.replicate n (Gesture.L_SHAPE_PHOTO, x)) s).countdown
          = s.countdown ∧
      (runFrames (List.replicate n (Gesture.L_SHAPE_PHOTO, x)) s).captures
          = s.captures := by
  intro n
  induction n with
  | zero => intro s h; exact ⟨rfl, h, rfl, rfl⟩
  | succ k ih =>
      intro s h
      rw [List.replicate_succ, runFrames_cons, frameStep_L_counting s x h]
      exact ih _ h

lemma runFrames_L_idle (x : ℚ) :
    ∀ (n : ℕ) (s : AState), s.isCountingDown = false →
      s.photoModeDebounce ≤ 10 →
      (runFrames (List.replicate n (Gesture.L_SHAPE_PHOTO, x)) s).photoModeDebounce
          = min (s.photoModeDebounce + n) 11 ∧
      ((runFrames (List.replicate n (Gesture.L_SHAPE_PHOTO, x)) s).isCountingDown
          = decide (11 ≤ s.photoModeDebounce + n)) ∧
      (runFrames (List.replicate n (Gesture.L_SHAPE_PHOTO, x)) s).captures
          = s.captures := by
  intro n
  induction n with
  | zero =>
      intro s h hd
      refine ⟨?_, ?_, rfl⟩
      · show s.photoModeDebounce = min (s.photoModeDebounce + 0) 11
        omega
      · show s.isCountingDown = decide (11 ≤ s.photoModeDebounce + 0)
        rw [h]
        symm
        simp only [decide_eq_false_iff_not]
        omega
  | succ k ih =>
      intro s h hd
      rw [List.replicate_succ, runFrames_cons, frameStep_L_idle s x h]
      by_cases hgt : s.photoModeDebounce + 1 > 10
      · rw [if_pos hgt]
        obtain ⟨h1, h2, h3, h4⟩ := runFrames_L_counting x k
          { s with gesture := Gesture.L_SHAPE_PHOTO, rotationSpeed := 1 / 200,
                   photoModeDebounce := s.photoModeDebounce + 1,
                   isCountingDown := true, countdown := 3 } rfl
        refine ⟨?_, ?_, h4⟩
        · rw [h1]
          show s.photoModeDebounce + 1 = min (s.photoModeDebounce + (k + 1)) 11
          omega
        · rw [h2]
          symm
          simp only [decide_eq_true_eq]
          omega
      · rw [if_neg hgt]
        obtain ⟨h1, h2, h3⟩ := ih
          { s with gesture := Gesture.L_SHAPE_PHOTO, rotationSpeed := 1 / 200,
                   photoModeDebounce := s.photoModeDebounce + 1 }
          h ((show s.photoModeDebounce + 1 ≤ 10 by omega))
        have harith : s.photoModeDebounce + 1 + k = s.photoModeDebounce + (k + 1) := by
          omega
        refine ⟨?_, ?_, h3⟩
        · rw [h1]
          show min (s.photoModeDebounce + 1 + k) 11 = min (s.photoModeDebounce + (k + 1)) 11
          rw [harith]
        · rw [h2]
          show decide (11 ≤ s.photoModeDebounce + 1 + k)
              = decide (11 ≤ s.photoModeDebounce + (k + 1))
          rw [harith]

/-- C2: a countdown starts only after an unbroken run of strictly more than
10 L-shape frames from an idle, zero-debounce state (an 11-frame run flips
the sub-state, a run of at most 10 does not, and no capture fires from
frames alone); any non-L-shape classified frame zeroes the debounce
counter; while counting down an L-shape frame neither advances the counter
nor starts a second countdown; the tick that takes the countdown to zero
fires exactly one capture trigger and returns to idle with the counter
zeroed, while earlier ticks only decrement. -/
theorem visionMachine_debounce_countdown :
    (∀ (n : ℕ) (x : ℚ) (s : AState),
      s.isCountingDown = false → s.photoModeDebounce = 0 →
      (((runFrames (List.replicate n (Gesture.L_SHAPE_PHOTO, x)) s).isCountingDown
          = true) ↔ 10 < n) ∧
      (runFrames (List.replicate n (Gesture.L_SHAPE_PHOTO, x)) s).captures
          = s.captures) ∧
    (∀ (s : AState) (g : Gesture) (x : ℚ), g ≠ Gesture.L_SHAPE_PHOTO →
      (frameStep (some (g, x)) s).photoModeDebounce = 0) ∧
    (∀ (s : AState) (x : ℚ), s.isCountingDown = true →
      (frameStep (some (Gesture.L_SHAPE_PHOTO, x)) s).photoModeDebounce
          = s.photoModeDebounce ∧
      (frameStep (some (Gesture.L_SHAPE_PHOTO, x)) s).isCountingDown = true ∧
      (frameStep (some (Gesture.L_SHAPE_PHOTO, x)) s).countdown = s.countdown ∧
      (frameStep (some (Gesture.L_SHAPE_PHOTO, x)) s).captures = s.captures) ∧
    (∀ (s : AState) (r : PhotoRnd), s.isCountingDown = true → s.countdown = 1 →
      (timerTick r s).captures = s.captures + 1 ∧
      (timerTick r s).isCountingDown = false ∧
      (timerTick r s).photoModeDebounce = 0) ∧
    (∀ (s : AState) (r : PhotoRnd), s.isCountingDown = true → 1 < s.countdown →
      (timerTick r s).captures = s.captures ∧
      (timerTick r s).isCountingDown = true ∧
      (timerTick r s).countdown = s.countdown - 1) := by
  refine ⟨?_, ?_, ?_, ?_, ?_⟩
  · intro n x s h hd
    obtain ⟨h1, h2, h3⟩ := runFrames_L_idle x n s h (by omega)
    refine ⟨?_, h3⟩
    rw [h2, hd]
    simp only [decide_eq_true_eq]
    omega
  · intro s g x hg
    cases g <;> first | rfl | exact absurd rfl hg
  · intro s x h
    rw [frameStep_L_counting s x h]
    exact ⟨rfl, h, rfl, rfl⟩
  · intro s r h1 h2
    unfold timerTick
    rw [h1, h2]
    simp
  · intro s r h1 h2
    have hc : s.countdown - 1 > 0 := by omega
    unfold timerTick
    rw [h1]
    simp [hc, h1]

/-- Witness for C2: from the initial idle state, eleven consecutive
L-shape-classified frames start the countdown. -/
theorem visionMachine_debounce_countdown_witness :
    (runFrames (List.replicate 11 (Gesture.L_SHAPE_PHOTO, 1 / 2))
        initialState).isCountingDown = true :=
  ((visionMachine_debounce_countdown.1 11 (1 / 2) initialState rfl rfl).1).mpr
    (by norm_num)

/-- A photo particle as the pinch-focus target, with distinct tree and
scatter positions. -/
def focusPhotoParticle : Particle :=
  { position := ⟨0, 0, 0⟩
    type := PType.PHOTO
    treePos := ⟨0, 0, 0⟩
    scatterPos := ⟨1, 1, 1⟩
    velocity := ⟨0, 0, 0⟩
    originalScale := some (3 / 2) }

/-- Counterexample to C3: during a pinch, the camera-nearest photo
particle's interpolation target is the fixed inspection point (0, 5, 55),
which is neither its tree position nor its (current or advanced) scatter
position. -/
theorem animTarget_focus_counterexample :
    ¬(animTarget AppMode.SCATTER Gesture.PINCH_ZOOM true focusPhotoParticle
        = focusPhotoParticle.treePos) ∧
    ¬(animTarget AppMode.SCATTER Gesture.PINCH_ZOOM true focusPhotoParticle
        = focusPhotoParticle.scatterPos) ∧
    ¬(animTarget AppMode.SCATTER Gesture.PINCH_ZOOM true focusPhotoParticle
        = focusPhotoParticle.scatterPos + focusPhotoParticle.velocity) := by
  refine ⟨fun hcontra => ?_, fun hcontra => ?_, fun hcontra => ?_⟩ <;>
  · have hy := congrArg Vec3.y hcontra
    norm_num [animTarget, focusPhotoParticle] at hy

/-- C3 as amended: every particle's position is advanced only by linear
interpolation toward its current target with factor LERP_SPEED — never set
directly; the pinch-focused photo particle's target is the fixed inspection
point (0, 5, 55); and every other particle has exactly one of
{treePos, advanced scatterPos} as its target, the tree position when the
mode is TREE and the gesture is not a pinch, the scatter position
otherwise. -/
theorem animTarget_selection_amended (mode : AppMode) (g : Gesture)
    (foc : Bool) (p : Particle) :
    ((animStep mode g foc p).position
        = Vec3.lerp p.position (animTarget mode g foc p) LERP_SPEED) ∧
    ((g = Gesture.PINCH_ZOOM ∧ foc = true ∧ p.type = PType.PHOTO) →
        animTarget mode g foc p = ⟨0, 5, 55⟩) ∧
    (¬(g = Gesture.PINCH_ZOOM ∧ foc = true ∧ p.type = PType.PHOTO) →
      ((mode = AppMode.TREE ∧ g ≠ Gesture.PINCH_ZOOM) →
          animTarget mode g foc p = p.treePos) ∧
      (¬(mode = AppMode.TREE ∧ g ≠ Gesture.PINCH_ZOOM) →
          animTarget mode g foc p = p.scatterPos + p.velocity)) := by
  unfold animStep animTarget
  dsimp only
  split_ifs with h1 h2 <;> refine ⟨rfl, ?_, ?_⟩ <;> simp_all

/-- Witness for C3 (amended): a concrete non-focused particle in TREE mode
has its tree position as target. -/
theorem animTarget_selection_amended_witness :
    animTarget AppMode.TREE Gesture.NONE false focusPhotoParticle
      = focusPhotoParticle.treePos :=
  ((animTarget_selection_amended AppMode.TREE Gesture.NONE false
      focusPhotoParticle).2.2 (by simp)).1 (by simp)

lemma animStep_type (mode : AppMode) (g : Gesture) (foc : Bool) (p : Particle) :
    (animStep mode g foc p).type = p.type := by
  unfold animStep
  dsimp only
  split_ifs <;> rfl

lemma animStep_iter_type (mode : AppMode) (g : Gesture) (foc : Bool)
    (p : Particle) : ∀ n : ℕ, ((animStep mode g foc)^[n] p).type = p.type := by
  intro n
  induction n with
  | zero => rfl
  | succ k ih => rw [Function.iterate_succ_apply', animStep_type]; exact ih

lemma animStep_scatter (mode : AppMode) (g : Gesture) (foc : Bool)
    (p : Particle)
    (hfoc : ¬(g = Gesture.PINCH_ZOOM ∧ foc = true ∧ p.type = PType.PHOTO))
    (htree : ¬(mode = AppMode.TREE ∧ g ≠ Gesture.PINCH_ZOOM)) :
    (animStep mode g foc p).scatterPos = p.scatterPos + p.velocity ∧
    (animStep mode g foc p).velocity
      = (if SCATTER_RADIUS ^ 2 < Vec3.lengthSq (p.scatterPos + p.velocity)
         then -p.velocity else p.velocity) := by
  unfold animStep
  dsimp only
  rw [if_neg hfoc, if_neg htree]
  exact ⟨rfl, rfl⟩

lemma lengthSq_neg (v : Vec3) : Vec3.lengthSq (-v) = Vec3.lengthSq v := by
  simp only [Vec3.lengthSq, Vec3.neg_x, Vec3.neg_y, Vec3.neg_z]
  ring

/-- C5: in scatter-influenced behaviour, whenever adding the velocity to the
scatter position carries it past the scatter radius, the post-step velocity
is the exact negation of the pre-step velocity (and is unchanged
otherwise); the scatter position itself is always advanced by exactly the
velocity — never clamped or teleported; and the squared magnitude of the
velocity is invariant across any number of steps and reflections. -/
theorem scatterStep_reflection (mode : AppMode) (g : Gesture) (foc : Bool)
    (p : Particle)
    (hfoc : ¬(g = Gesture.PINCH_ZOOM ∧ foc = true ∧ p.type = PType.PHOTO))
    (htree : ¬(mode = AppMode.TREE ∧ g ≠ Gesture.PINCH_ZOOM)) :
    (SCATTER_RADIUS ^ 2 < Vec3.lengthSq (p.scatterPos + p.velocity) →
        (animStep mode g foc p).velocity = -p.velocity) ∧
    (¬(SCATTER_RADIUS ^ 2 < Vec3.lengthSq (p.scatterPos + p.velocity)) →
        (animStep mode g foc p).velocity = p.velocity) ∧
    (animStep mode g foc p).scatterPos = p.scatterPos + p.velocity ∧
    (∀ n : ℕ, Vec3.lengthSq (((animStep mode g foc)^[n] p).velocity)
        = Vec3.lengthSq p.velocity) := by
  obtain ⟨hsp, hv⟩ := animStep_scatter mode g foc p hfoc htree
  refine ⟨fun hb => ?_, fun hb => ?_, hsp, ?_⟩
  · rw [hv, if_pos hb]
  · rw [hv, if_neg hb]
  · intro n
    induction n with
    | zero => rfl
    | succ k ih =>
        rw [Function.iterate_succ_apply']
        have hfoc2 : ¬(g = Gesture.PINCH_ZOOM ∧ foc = true ∧
            ((animStep mode g foc)^[k] p).type = PType.PHOTO) := by
          rw [animStep_iter_type]
          exact hfoc
        obtain ⟨hsp2, hv2⟩ :=
          animStep_scatter mode g foc ((animStep mode g foc)^[k] p) hfoc2 htree
        rw [hv2]
        split_ifs with hb
        · rw [lengthSq_neg, ih]
        · rw [ih]

/-- A particle sitting on the scatter boundary, about to cross it. -/
def boundaryParticle : Particle :=
  { position := ⟨0, 0, 0⟩
    type := PType.ORNAMENT
    treePos := ⟨0, 0, 0⟩
    scatterPos := ⟨70, 0, 0⟩
    velocity := ⟨1, 0, 0⟩
    originalScale := none }

/-- Witness for C5: a concrete particle crossing the boundary has its
velocity negated by the scatter step. -/
theorem scatterStep_reflection_witness :
    (animStep AppMode.SCATTER Gesture.NONE false boundaryParticle).velocity
      = -boundaryParticle.velocity :=
  (scatterStep_reflection AppMode.SCATTER Gesture.NONE false boundaryParticle
      (by simp) (by simp)).1
    (by norm_num [SCATTER_RADIUS, Vec3.lengthSq, boundaryParticle])

lemma animStep_tree (p : Particle) :
    (animStep AppMode.TREE Gesture.NONE false p).position
        = Vec3.lerp p.position p.treePos LERP_SPEED ∧
    (animStep AppMode.TREE Gesture.NONE false p).treePos = p.treePos :=
  ⟨rfl, rfl⟩

lemma animStep_tree_iter (p : Particle) : ∀ N : ℕ,
    ((animStep AppMode.TREE Gesture.NONE false)^[N] p).treePos = p.treePos ∧
    ((animStep AppMode.TREE Gesture.NONE false)^[N] p).position
        = p.position
            + Vec3.smul (1 - (1 - LERP_SPEED) ^ N) (p.treePos - p.position) := by
  intro N
  induction N with
  | zero =>
      refine ⟨rfl, ?_⟩
      apply Vec3.ext3 <;> simp
  | succ k ih =>
      obtain ⟨ht, hp⟩ := ih
      rw [Function.iterate_succ_apply']
      refine ⟨?_, ?_⟩
      · rw [(animStep_tree _).2, ht]
      · rw [(animStep_tree _).1, hp, ht]
        apply Vec3.ext3 <;>
          · simp only [Vec3.lerp_x, Vec3.lerp_y, Vec3.lerp_z, Vec3.add_x,
              Vec3.add_y, Vec3.add_z, Vec3.sub_x, Vec3.sub_y, Vec3.sub_z,
              Vec3.smul_x, Vec3.smul_y, Vec3.smul_z]
            rw [pow_succ]
            ring

/-- Betweenness of a rational: `b` lies (inclusively) between `a` and
`c`. -/
def between (a b c : ℚ) : Prop := (a ≤ b ∧ b ≤ c) ∨ (c ≤ b ∧ b ≤ a)

lemma between_lerp (a T α : ℚ) (h0 : 0 ≤ α) (h1 : α ≤ 1) :
    between a (a + α * (T - a)) T := by
  rcases le_total a T with hle | hle
  · left
    constructor <;> nlinarith
  · right
    constructor <;> nlinarith

lemma distSq_closed (p : Particle) (M : ℕ) :
    Vec3.distSq (((animStep AppMode.TREE Gesture.NONE false)^[M] p).position)
        p.treePos
      = ((1 - LERP_SPEED) ^ M) ^ 2 * Vec3.distSq p.position p.treePos := by
  rw [(animStep_tree_iter p M).2]
  simp only [Vec3.distSq, Vec3.lengthSq, Vec3.sub_x, Vec3.sub_y, Vec3.sub_z,
    Vec3.add_x, Vec3.add_y, Vec3.add_z, Vec3.smul_x, Vec3.smul_y, Vec3.smul_z]
  ring

/-- C6: with the fixed target `treePos` of TREE mode and the fixed factor
LERP_SPEED = 0.025, the position after N animation ticks equals
`position₀ + (T − position₀) · (1 − (1 − f)^N)`; the squared distance to
the target never increases from one tick to the next; and each coordinate
of the position stays between its start value and the target's — the
motion never overshoots T. -/
theorem lerp_convergence (p : Particle) (N : ℕ) :
    ((animStep AppMode.TREE Gesture.NONE false)^[N] p).position
        = p.position
            + Vec3.smul (1 - (1 - LERP_SPEED) ^ N) (p.treePos - p.position) ∧
    Vec3.distSq (((animStep AppMode.TREE Gesture.NONE false)^[N + 1] p).position)
        p.treePos
      ≤ Vec3.distSq (((animStep AppMode.TREE Gesture.NONE false)^[N] p).position)
        p.treePos ∧
    between p.position.x
      (((animStep AppMode.TREE Gesture.NONE false)^[N] p).position).x
      p.treePos.x ∧
    between p.position.y
      (((animStep AppMode.TREE Gesture.NONE false)^[N] p).position).y
      p.treePos.y ∧
    between p.position.z
      (((animStep AppMode.TREE Gesture.NONE false)^[N] p).position).z
      p.treePos.z := by
  have hq0 : (0 : ℚ) ≤ 1 - LERP_SPEED := by norm_num [LERP_SPEED]
  have hq1 : (1 : ℚ) - LERP_SPEED ≤ 1 := by norm_num [LERP_SPEED]
  have hqN0 : (0 : ℚ) ≤ (1 - LERP_SPEED) ^ N := pow_nonneg hq0 N
  have hqN1 : (1 - LERP_SPEED) ^ N ≤ 1 := pow_le_one₀ hq0 hq1
  have hD : (0 : ℚ) ≤ Vec3.distSq p.position p.treePos := by
    simp only [Vec3.distSq, Vec3.lengthSq]
    positivity
  refine ⟨(animStep_tree_iter p N).2, ?_, ?_, ?_, ?_⟩
  · rw [distSq_closed, distSq_closed, pow_succ (1 - LERP_SPEED) N]
    have hq2 : (1 - LERP_SPEED) ^ 2 ≤ 1 := by nlinarith
    nlinarith [mul_nonneg (sq_nonneg ((1 - LERP_SPEED) ^ N)) hD, hq2,
      sq_nonneg (1 - LERP_SPEED)]
  all_goals
    rw [(animStep_tree_iter p N).2]
    simp only [Vec3.add_x, Vec3.add_y, Vec3.add_z, Vec3.smul_x, Vec3.smul_y,
      Vec3.smul_z, Vec3.sub_x, Vec3.sub_y, Vec3.sub_z]
    exact between_lerp _ _ _ (by linarith) (by linarith)
